import Mathlib

/-!
Verification development for the skill-swap application
(React frontend under `frontend/src`; the FastAPI backend described in the
README is not part of the snapshot, so backend handlers are modelled from
the specification where a property depends on them).

Shallow embedding conventions:
* identifiers (user ids, skill ids, request ids) are `String`, as in the
  TypeScript sources;
* fallible operations return `Except ApiError _`;
* React event handlers are modelled as pure functions from the prior view
  state and the outcome of the API call to the next view state together
  with the observable effects (toasts, refetches, emitted API calls).
-/

/-- The swap-request status enumeration, from `frontend/src/pages/Swaps.tsx`
(`type SwapStatus = 'pending' | 'accepted' | 'rejected' | 'cancelled' | 'completed'`). -/
inductive SwapStatus where
  | pending
  | accepted
  | rejected
  | cancelled
  | completed
deriving DecidableEq, Repr

/-- A swap request record, fields from the `SwapRequest` interface in
`frontend/src/pages/Swaps.tsx` (identifier fields only; display-enrichment
fields are omitted as they carry no lifecycle state). -/
structure SwapRequest where
  id : String
  sender_id : String
  receiver_id : String
  sender_skill : String
  receiver_skill : String
  message : String
  status : SwapStatus
deriving DecidableEq, Repr

/-- The server error taxonomy of spec §7. -/
inductive ApiError where
  | validationError
  | authenticationError
  | authorizationError
  | notFound
  | conflictError
deriving DecidableEq, Repr

/-- Modelled from the spec: the backend handler for `PUT /swaps/{id}/status`
(`updateStatus`), whose Python source is absent from the snapshot (only the
React frontend is present).  Spec §4.2: only the receiver may set
`accepted`/`rejected`; only the sender may set `cancelled`; either party may
mark `completed` once the request is `accepted`; the three pending-targeted
transitions require the current status to be `pending`.  A caller not
permitted to the specific transition gets `AuthorizationError`; a current
status that does not admit the transition gets `ConflictError`. -/
def updateStatus (r : SwapRequest) (callerId : String) (newStatus : SwapStatus) :
    Except ApiError SwapRequest :=
  match newStatus with
  | SwapStatus.accepted =>
      if callerId = r.receiver_id then
        if r.status = SwapStatus.pending then
          Except.ok { r with status := SwapStatus.accepted }
        else Except.error ApiError.conflictError
      else Except.error ApiError.authorizationError
  | SwapStatus.rejected =>
      if callerId = r.receiver_id then
        if r.status = SwapStatus.pending then
          Except.ok { r with status := SwapStatus.rejected }
        else Except.error ApiError.conflictError
      else Except.error ApiError.authorizationError
  | SwapStatus.cancelled =>
      if callerId = r.sender_id then
        if r.status = SwapStatus.pending then
          Except.ok { r with status := SwapStatus.cancelled }
        else Except.error ApiError.conflictError
      else Except.error ApiError.authorizationError
  | SwapStatus.completed =>
      if callerId = r.sender_id ∨ callerId = r.receiver_id then
        if r.status = SwapStatus.accepted then
          Except.ok { r with status := SwapStatus.completed }
        else Except.error ApiError.conflictError
      else Except.error ApiError.authorizationError
  | SwapStatus.pending =>
      Except.error ApiError.validationError

/-- The stored request after an `updateStatus` attempt: on success the
updated record, on failure the record unchanged. -/
def applyUpdateStatus (r : SwapRequest) (callerId : String)
    (newStatus : SwapStatus) : SwapRequest :=
  match updateStatus r callerId newStatus with
  | Except.ok r2 => r2
  | Except.error _ => r

/-- Whether an `updateStatus` attempt succeeded. -/
def isOkE (e : Except ApiError SwapRequest) : Bool :=
  match e with
  | Except.ok _ => true
  | Except.error _ => false

/-- The transition relation the spec describes (§4.2 / §8):
`pending → accepted | rejected | cancelled` and `accepted → completed`. -/
def allowedTransition : SwapStatus → SwapStatus → Bool
  | SwapStatus.pending, SwapStatus.accepted => true
  | SwapStatus.pending, SwapStatus.rejected => true
  | SwapStatus.pending, SwapStatus.cancelled => true
  | SwapStatus.accepted, SwapStatus.completed => true
  | _, _ => false

/-- The two tabs of the Swaps page, from `frontend/src/pages/Swaps.tsx`
(`activeTab : 'sent' | 'received'`). -/
inductive Tab where
  | sent
  | received
deriving DecidableEq, Repr

/-- The lifecycle actions the Swaps page can offer on a request card. -/
inductive SwapAction where
  | accept
  | reject
  | cancel
deriving DecidableEq, Repr

/-- The actions rendered for a request on the Swaps page, from
`frontend/src/pages/Swaps.tsx` lines 285-315 (and the identical guard in
the detail modal, lines 360-396): buttons appear only under
`request.status === 'pending'`; accept/reject under the received tab,
cancel under the sent tab. -/
def offeredActions (tab : Tab) (status : SwapStatus) : List SwapAction :=
  if status = SwapStatus.pending then
    match tab with
    | Tab.received => [SwapAction.accept, SwapAction.reject]
    | Tab.sent => [SwapAction.cancel]
  else []

/-- Concrete fixture: a pending request from user u1 to user u2. -/
def sampleRequest : SwapRequest :=
  { id := "r1", sender_id := "u1", receiver_id := "u2",
    sender_skill := "s1", receiver_skill := "s2",
    message := "hello", status := SwapStatus.pending }

/-- C1: every successful `updateStatus` follows the transition relation
`pending → accepted | rejected | cancelled`, `accepted → completed`; an
attempted transition outside the relation leaves the stored status
unchanged; and the client offers accept/reject/cancel only while the
request's status is `pending`. -/
theorem claim_C1 (r : SwapRequest) (callerId : String) (t : SwapStatus) :
    (isOkE (updateStatus r callerId t) = true → allowedTransition r.status t = true)
    ∧ (allowedTransition r.status t = false → applyUpdateStatus r callerId t = r)
    ∧ (∀ tab a, a ∈ offeredActions tab r.status → r.status = SwapStatus.pending) := by
  refine ⟨?_, ?_, ?_⟩
  · intro h
    cases t with
    | pending => simp [updateStatus, isOkE] at h
    | accepted =>
        by_cases hc : callerId = r.receiver_id
        · by_cases hs : r.status = SwapStatus.pending
          · rw [hs]; rfl
          · simp [updateStatus, hc, hs, isOkE] at h
        · simp [updateStatus, hc, isOkE] at h
    | rejected =>
        by_cases hc : callerId = r.receiver_id
        · by_cases hs : r.status = SwapStatus.pending
          · rw [hs]; rfl
          · simp [updateStatus, hc, hs, isOkE] at h
        · simp [updateStatus, hc, isOkE] at h
    | cancelled =>
        by_cases hc : callerId = r.sender_id
        · by_cases hs : r.status = SwapStatus.pending
          · rw [hs]; rfl
          · simp [updateStatus, hc, hs, isOkE] at h
        · simp [updateStatus, hc, isOkE] at h
    | completed =>
        by_cases hc : callerId = r.sender_id ∨ callerId = r.receiver_id
        · by_cases hs : r.status = SwapStatus.accepted
          · rw [hs]; rfl
          · simp [updateStatus, hc, hs, isOkE] at h
        · simp [updateStatus, hc, isOkE] at h
  · intro h
    cases t with
    | pending => rfl
    | accepted =>
        by_cases hc : callerId = r.receiver_id
        · by_cases hs : r.status = SwapStatus.pending
          · rw [hs] at h; simp [allowedTransition] at h
          · simp [applyUpdateStatus, updateStatus, hc, hs]
        · simp [applyUpdateStatus, updateStatus, hc]
    | rejected =>
        by_cases hc : callerId = r.receiver_id
        · by_cases hs : r.status = SwapStatus.pending
          · rw [hs] at h; simp [allowedTransition] at h
          · simp [applyUpdateStatus, updateStatus, hc, hs]
        · simp [applyUpdateStatus, updateStatus, hc]
    | cancelled =>
        by_cases hc : callerId = r.sender_id
        · by_cases hs : r.status = SwapStatus.pending
          · rw [hs] at h; simp [allowedTransition] at h
          · simp [applyUpdateStatus, updateStatus, hc, hs]
        · simp [applyUpdateStatus, updateStatus, hc]
    | completed =>
        by_cases hc : callerId = r.sender_id ∨ callerId = r.receiver_id
        · by_cases hs : r.status = SwapStatus.accepted
          · rw [hs] at h; simp [allowedTransition] at h
          · simp [applyUpdateStatus, updateStatus, hc, hs]
        · simp [applyUpdateStatus, updateStatus, hc]
  · intro tab a h
    by_cases hs : r.status = SwapStatus.pending
    · exact hs
    · simp [offeredActions, hs] at h

/-- Witness for C1 at concrete inputs: the receiver accepting the pending
sample request is a successful, allowed transition; a completion attempt on
the pending request is outside the relation and leaves it unchanged; and
the accept action shown on the received tab implies pending status. -/
theorem claim_C1_witness :
    allowedTransition sampleRequest.status SwapStatus.accepted = true
    ∧ applyUpdateStatus sampleRequest "u1" SwapStatus.completed = sampleRequest
    ∧ sampleRequest.status = SwapStatus.pending :=
  ⟨(claim_C1 sampleRequest "u2" SwapStatus.accepted).1 (by decide),
   (claim_C1 sampleRequest "u1" SwapStatus.completed).2.1 (by decide),
   (claim_C1 sampleRequest "u1" SwapStatus.pending).2.2 Tab.received SwapAction.accept
     (by decide)⟩

/-- C2: only the receiver may set accepted/rejected and only the sender may
set cancelled; an attempt by anyone else fails with AuthorizationError and
leaves the request unchanged; in the client, accept/reject controls render
only in the received-requests view and cancel only in the sent-requests
view. -/
theorem claim_C2 (r : SwapRequest) (callerId : String) :
    (callerId ≠ r.receiver_id →
      updateStatus r callerId SwapStatus.accepted
        = Except.error ApiError.authorizationError
      ∧ updateStatus r callerId SwapStatus.rejected
        = Except.error ApiError.authorizationError
      ∧ applyUpdateStatus r callerId SwapStatus.accepted = r
      ∧ applyUpdateStatus r callerId SwapStatus.rejected = r)
    ∧ (callerId ≠ r.sender_id →
      updateStatus r callerId SwapStatus.cancelled
        = Except.error ApiError.authorizationError
      ∧ applyUpdateStatus r callerId SwapStatus.cancelled = r)
    ∧ (isOkE (updateStatus r callerId SwapStatus.accepted) = true →
        callerId = r.receiver_id)
    ∧ (isOkE (updateStatus r callerId SwapStatus.rejected) = true →
        callerId = r.receiver_id)
    ∧ (isOkE (updateStatus r callerId SwapStatus.cancelled) = true →
        callerId = r.sender_id)
    ∧ (∀ tab st, SwapAction.accept ∈ offeredActions tab st → tab = Tab.received)
    ∧ (∀ tab st, SwapAction.reject ∈ offeredActions tab st → tab = Tab.received)
    ∧ (∀ tab st, SwapAction.cancel ∈ offeredActions tab st → tab = Tab.sent) := by
  refine ⟨?_, ?_, ?_, ?_, ?_, ?_, ?_, ?_⟩
  · intro hc
    exact ⟨by simp [updateStatus, hc], by simp [updateStatus, hc],
      by simp [applyUpdateStatus, updateStatus, hc],
      by simp [applyUpdateStatus, updateStatus, hc]⟩
  · intro hc
    exact ⟨by simp [updateStatus, hc], by simp [applyUpdateStatus, updateStatus, hc]⟩
  · intro h
    by_cases hc : callerId = r.receiver_id
    · exact hc
    · simp [updateStatus, hc, isOkE] at h
  · intro h
    by_cases hc : callerId = r.receiver_id
    · exact hc
    · simp [updateStatus, hc, isOkE] at h
  · intro h
    by_cases hc : callerId = r.sender_id
    · exact hc
    · simp [updateStatus, hc, isOkE] at h
  · intro tab st h
    cases tab with
    | received => rfl
    | sent =>
        by_cases hs : st = SwapStatus.pending <;>
          simp [offeredActions, hs] at h
  · intro tab st h
    cases tab with
    | received => rfl
    | sent =>
        by_cases hs : st = SwapStatus.pending <;>
          simp [offeredActions, hs] at h
  · intro tab st h
    cases tab with
    | sent => rfl
    | received =>
        by_cases hs : st = SwapStatus.pending <;>
          simp [offeredActions, hs] at h

/-- Witness for C2 at concrete inputs: user u3 (a third user) cannot accept
or cancel the sample request; a successful accept by u2 pins the caller to
the receiver; the cancel control implies the sent tab. -/
theorem claim_C2_witness :
    (updateStatus sampleRequest "u3" SwapStatus.accepted
        = Except.error ApiError.authorizationError
      ∧ updateStatus sampleRequest "u3" SwapStatus.rejected
        = Except.error ApiError.authorizationError
      ∧ applyUpdateStatus sampleRequest "u3" SwapStatus.accepted = sampleRequest
      ∧ applyUpdateStatus sampleRequest "u3" SwapStatus.rejected = sampleRequest)
    ∧ (updateStatus sampleRequest "u2" SwapStatus.cancelled
        = Except.error ApiError.authorizationError
      ∧ applyUpdateStatus sampleRequest "u2" SwapStatus.cancelled = sampleRequest)
    ∧ "u2" = sampleRequest.receiver_id
    ∧ Tab.sent = Tab.sent :=
  ⟨(claim_C2 sampleRequest "u3").1 (by decide),
   (claim_C2 sampleRequest "u2").2.1 (by decide),
   (claim_C2 sampleRequest "u2").2.2.1 (by decide),
   (claim_C2 sampleRequest "u1").2.2.2.2.2.2.2 Tab.sent SwapStatus.pending (by decide)⟩

/-- A user record as the backend stores and returns it: identifier, public
visibility flag, banned flag, availability tag, and the two directional
skill sets (spec §3; the search-result `SearchUser` interface of the Search
page carries the same identifier/availability/skill fields). -/
structure UserRec where
  id : String
  name : String
  is_public : Bool
  banned : Bool
  availability : String
  skills_offered : List String
  skills_wanted : List String
deriving DecidableEq, Repr

/-- Whether a user in the store holds the given skill in the offered
direction (spec §3: `UserSkill` association with direction `offered`). -/
def holdsOffered (users : List UserRec) (userId skillId : String) : Bool :=
  users.any (fun u => u.id == userId && u.skills_offered.contains skillId)

/-- Whether the request store already holds a `pending` request between the
same ordered pair of users for the same skill pair (spec §4.2 duplicate
suppression). -/
def hasPendingDuplicate (db : List SwapRequest)
    (senderId receiverId senderSkillId receiverSkillId : String) : Bool :=
  db.any (fun r => r.sender_id == senderId && r.receiver_id == receiverId
    && r.sender_skill == senderSkillId && r.receiver_skill == receiverSkillId
    && r.status == SwapStatus.pending)

/-- Modelled from the spec: the backend handler for `POST /swaps/request`
(`createRequest`), whose Python source is absent from the snapshot.  Spec
§4.2: fails with ValidationError if sender equals receiver, if either skill
is not actually held by the respective party in the matching direction
(sender offers the sender skill, receiver offers the receiver skill), or if
a pending request between the same ordered pair for the same skill pair
already exists; on success the new record is stored with status `pending`. -/
def createRequest (users : List UserRec) (db : List SwapRequest) (newId : String)
    (senderId receiverId senderSkillId receiverSkillId message : String) :
    Except ApiError SwapRequest :=
  if senderId = receiverId then Except.error ApiError.validationError
  else if holdsOffered users senderId senderSkillId = false then
    Except.error ApiError.validationError
  else if holdsOffered users receiverId receiverSkillId = false then
    Except.error ApiError.validationError
  else if hasPendingDuplicate db senderId receiverId senderSkillId receiverSkillId then
    Except.error ApiError.validationError
  else
    Except.ok
      { id := newId, sender_id := senderId, receiver_id := receiverId,
        sender_skill := senderSkillId, receiver_skill := receiverSkillId,
        message := message, status := SwapStatus.pending }

/-- The JSON body the frontend posts to `POST /swaps/request`: the object
literal in `sendSwapRequest` (Search page) and `onSwipe` (SwipeMatches page)
has exactly the fields `target_user_id` and `message`. -/
structure CreateRequestPayload where
  target_user_id : String
  message : String
deriving DecidableEq, Repr

/-- The Search page's `sendSwapRequest`: if the selected user or either
selected skill is unset (empty string) it only raises an error toast and
sends nothing; otherwise it posts `{target_user_id, message}`. -/
def sendSwapRequest (selectedUserId : String) (swapMessage : String)
    (selectedOfferedSkill selectedWantedSkill : String) :
    Option CreateRequestPayload :=
  if selectedOfferedSkill = "" ∨ selectedWantedSkill = "" then none
  else some { target_user_id := selectedUserId, message := swapMessage }

/-- C3 counterexample: the claim says the client's create-request calls
"carry the skill selections needed to perform this validation", but the
payload built by `sendSwapRequest` is identical for two different skill
selections and consists only of the target user id and the message, so the
selections are not transmitted. -/
theorem claim_C3_counterexample :
    sendSwapRequest "u2" "hi" "guitar" "piano"
      = sendSwapRequest "u2" "hi" "cooking" "chess"
    ∧ sendSwapRequest "u2" "hi" "guitar" "piano"
      = some { target_user_id := "u2", message := "hi" } := by
  constructor <;> rfl

/-- C3 (amended): the modelled `createRequest` fails with ValidationError
when either named skill is not held by the respective party in the offered
direction or when a pending duplicate exists between the same ordered pair
for the same skill pair; the client's create-request calls, however, carry
only the target user id and the message — the selected skills are not part
of the payload. -/
theorem claim_C3 (users : List UserRec) (db : List SwapRequest)
    (newId senderId receiverId sSkill rSkill msg : String) :
    (holdsOffered users senderId sSkill = false →
      createRequest users db newId senderId receiverId sSkill rSkill msg
        = Except.error ApiError.validationError)
    ∧ (holdsOffered users receiverId rSkill = false →
      createRequest users db newId senderId receiverId sSkill rSkill msg
        = Except.error ApiError.validationError)
    ∧ (hasPendingDuplicate db senderId receiverId sSkill rSkill = true →
      createRequest users db newId senderId receiverId sSkill rSkill msg
        = Except.error ApiError.validationError)
    ∧ (∀ s1 s2, s1 ≠ "" → s2 ≠ "" →
      sendSwapRequest receiverId msg s1 s2
        = some { target_user_id := receiverId, message := msg }) := by
  refine ⟨?_, ?_, ?_, ?_⟩
  · intro h
    by_cases he : senderId = receiverId
    · simp [createRequest, he]
    · simp [createRequest, he, h]
  · intro h
    by_cases he : senderId = receiverId
    · simp [createRequest, he]
    · by_cases h1 : holdsOffered users senderId sSkill = false
      · simp [createRequest, he, h1]
      · simp [createRequest, he, h1, h]
  · intro h
    by_cases he : senderId = receiverId
    · simp [createRequest, he]
    · by_cases h1 : holdsOffered users senderId sSkill = false
      · simp [createRequest, he, h1]
      · by_cases h2 : holdsOffered users receiverId rSkill = false
        · simp [createRequest, he, h1, h2]
        · simp [createRequest, he, h1, h2, h]
  · intro s1 s2 h1 h2
    simp [sendSwapRequest, h1, h2]

/-- Witness for C3 at concrete inputs: with an empty user store neither
skill is held, so creation fails; with a store in which the pending sample
request already exists, the duplicate is rejected; and a nonempty skill
selection still produces the two-field payload. -/
theorem claim_C3_witness :
    createRequest [] [] "r9" "u1" "u2" "s1" "s2" "hello"
      = Except.error ApiError.validationError
    ∧ createRequest [] [] "r9" "u1" "u2" "s1" "s2" "hello"
      = Except.error ApiError.validationError
    ∧ createRequest [] [sampleRequest] "r9" "u1" "u2" "s1" "s2" "hello"
      = Except.error ApiError.validationError
    ∧ sendSwapRequest "u2" "hello" "s1" "s2"
      = some { target_user_id := "u2", message := "hello" } :=
  ⟨(claim_C3 [] [] "r9" "u1" "u2" "s1" "s2" "hello").1 (by decide),
   (claim_C3 [] [] "r9" "u1" "u2" "s1" "s2" "hello").2.1 (by decide),
   (claim_C3 [] [sampleRequest] "r9" "u1" "u2" "s1" "s2" "hello").2.2.1 (by decide),
   (claim_C3 [] [] "r9" "u1" "u2" "s1" "s2" "hello").2.2.2 "s1" "s2"
     (by decide) (by decide)⟩

/-- The candidate filter of the SwipeMatches page (`fetchUsers`): the users
returned by the search API are further filtered client-side by
`u.id !== user?.id && !swipedUserIds.includes(u.id)`. -/
def filteredUsers (respUsers : List UserRec) (currentUserId : String)
    (swipedUserIds : List String) : List UserRec :=
  respUsers.filter
    (fun u => !(u.id == currentUserId) && !(swipedUserIds.contains u.id))

/-- C4: `createRequest` rejects a call whose sender equals its receiver, so
every created request has distinct parties; and the swipe candidate list
never contains the current user's own record. -/
theorem claim_C4 (users : List UserRec) (db : List SwapRequest)
    (newId senderId receiverId sSkill rSkill msg : String) :
    (senderId = receiverId →
      createRequest users db newId senderId receiverId sSkill rSkill msg
        = Except.error ApiError.validationError)
    ∧ (∀ r, createRequest users db newId senderId receiverId sSkill rSkill msg
        = Except.ok r → r.sender_id ≠ r.receiver_id)
    ∧ (∀ (respUsers : List UserRec) (swipedUserIds : List String) (u : UserRec),
        u ∈ filteredUsers respUsers senderId swipedUserIds → u.id ≠ senderId) := by
  refine ⟨?_, ?_, ?_⟩
  · intro he
    simp [createRequest, he]
  · intro r h
    by_cases he : senderId = receiverId
    · simp [createRequest, he] at h
    · simp only [createRequest, if_neg he] at h
      split at h
      · exact absurd h (by simp)
      · split at h
        · exact absurd h (by simp)
        · split at h
          · exact absurd h (by simp)
          · have hr : r.sender_id = senderId ∧ r.receiver_id = receiverId := by
              cases h
              exact ⟨rfl, rfl⟩
            rw [hr.1, hr.2]
            exact he
  · intro respUsers swipedUserIds u hu
    have hmem := List.mem_filter.mp hu
    have hpred := hmem.2
    simp only [Bool.and_eq_true, Bool.not_eq_true'] at hpred
    intro hid
    have : (u.id == senderId) = true := beq_iff_eq.mpr hid
    rw [this] at hpred
    exact Bool.false_ne_true hpred.1.symm

/-- Witness for C4 at concrete inputs: a self-request from u1 to u1 is
rejected; on the successful sample creation the parties differ; and a
candidate list containing u1's own record filters it out. -/
theorem claim_C4_witness :
    createRequest [] [] "r9" "u1" "u1" "s1" "s2" "hello"
      = Except.error ApiError.validationError
    ∧ ({ id := "r9", sender_id := "u1", receiver_id := "u2",
         sender_skill := "s1", receiver_skill := "s2",
         message := "hi", status := SwapStatus.pending } : SwapRequest).sender_id
        ≠ ({ id := "r9", sender_id := "u1", receiver_id := "u2",
             sender_skill := "s1", receiver_skill := "s2",
             message := "hi", status := SwapStatus.pending } : SwapRequest).receiver_id
    ∧ ({ id := "u2", name := "B", is_public := true, banned := false,
         availability := "", skills_offered := [], skills_wanted := [] } : UserRec).id
        ≠ "u1" :=
  ⟨(claim_C4 [] [] "r9" "u1" "u1" "s1" "s2" "hello").1 rfl,
   (claim_C4
      [ { id := "u1", name := "A", is_public := true, banned := false,
          availability := "", skills_offered := ["s1"], skills_wanted := [] },
        { id := "u2", name := "B", is_public := true, banned := false,
          availability := "", skills_offered := ["s2"], skills_wanted := [] } ]
      [] "r9" "u1" "u2" "s1" "s2" "hi").2.1
      { id := "r9", sender_id := "u1", receiver_id := "u2",
        sender_skill := "s1", receiver_skill := "s2",
        message := "hi", status := SwapStatus.pending } rfl,
   (claim_C4 [] [] "r9" "u1" "u2" "s1" "s2" "hello").2.2
      [ { id := "u1", name := "A", is_public := true, banned := false,
          availability := "", skills_offered := [], skills_wanted := [] },
        { id := "u2", name := "B", is_public := true, banned := false,
          availability := "", skills_offered := [], skills_wanted := [] } ]
      []
      { id := "u2", name := "B", is_public := true, banned := false,
        availability := "", skills_offered := [], skills_wanted := [] }
      (by decide)⟩

/-- A skill record `{id, name}`, from the `Skill` interface of the Profile
page. -/
structure SkillRec where
  id : String
  name : String
deriving DecidableEq, Repr

/-- The error cases of the Profile page's `addSkill` (the two error toasts
it can raise). -/
inductive AddSkillError where
  | alreadyAdded
  | maxLimitReached
deriving DecidableEq, Repr

/-- The Profile page's `addSkill` for one direction: returns unchanged if no
skill is selected or the selection is not in the catalog; errors (leaving
the set unchanged) if the skill's id is already present or the set already
holds 10 entries; otherwise appends the selected skill. -/
def addSkill (availableSkills : List SkillRec) (selectedSkillId : String)
    (currentSkills : List SkillRec) : List SkillRec × Option AddSkillError :=
  if selectedSkillId = "" then (currentSkills, none)
  else
    match availableSkills.find? (fun s => s.id == selectedSkillId) with
    | none => (currentSkills, none)
    | some selectedSkill =>
        if currentSkills.any (fun s => s.id == selectedSkill.id) then
          (currentSkills, some AddSkillError.alreadyAdded)
        else if currentSkills.length ≥ 10 then
          (currentSkills, some AddSkillError.maxLimitReached)
        else (currentSkills ++ [selectedSkill], none)

/-- The Profile page's `removeSkill` for one direction: drops the entries
with the given id. -/
def removeSkill (currentSkills : List SkillRec) (skillId : String) :
    List SkillRec :=
  currentSkills.filter (fun s => !(s.id == skillId))

/-- C5: the per-direction skill set never exceeds 10 entries and never
gains a duplicate id through `addSkill`; an add onto a full set and an add
of an id already present both leave the set unchanged; `removeSkill` can
only shrink the set and preserves distinctness. -/
theorem claim_C5 (availableSkills : List SkillRec) (selectedSkillId : String)
    (currentSkills : List SkillRec) :
    (currentSkills.length ≤ 10 →
      (addSkill availableSkills selectedSkillId currentSkills).1.length ≤ 10)
    ∧ ((currentSkills.map SkillRec.id).Nodup →
      ((addSkill availableSkills selectedSkillId currentSkills).1.map SkillRec.id).Nodup)
    ∧ (currentSkills.length ≥ 10 →
      (addSkill availableSkills selectedSkillId currentSkills).1 = currentSkills)
    ∧ (selectedSkillId ∈ currentSkills.map SkillRec.id →
      (addSkill availableSkills selectedSkillId currentSkills).1 = currentSkills)
    ∧ (removeSkill currentSkills selectedSkillId).length ≤ currentSkills.length
    ∧ ((currentSkills.map SkillRec.id).Nodup →
      ((removeSkill currentSkills selectedSkillId).map SkillRec.id).Nodup) := by
  refine ⟨?_, ?_, ?_, ?_, ?_, ?_⟩
  · intro hlen
    by_cases he : selectedSkillId = ""
    · simp [addSkill, he, hlen]
    · simp only [addSkill, if_neg he]
      cases hf : availableSkills.find? (fun s => s.id == selectedSkillId) with
      | none => simpa using hlen
      | some sk =>
          by_cases hd : currentSkills.any (fun s => s.id == sk.id)
          · simpa [hd] using hlen
          · by_cases hm : currentSkills.length ≥ 10
            · simpa [hd, hm] using hlen
            · simp only [hd, hm]
              simp only [Bool.false_eq_true, if_false, ge_iff_le, not_le] at *
              simp only [List.length_append, List.length_singleton]
              omega
  · intro hnd
    by_cases he : selectedSkillId = ""
    · simpa [addSkill, he] using hnd
    · simp only [addSkill, if_neg he]
      cases hf : availableSkills.find? (fun s => s.id == selectedSkillId) with
      | none => simpa using hnd
      | some sk =>
          by_cases hd : currentSkills.any (fun s => s.id == sk.id)
          · simpa [hd] using hnd
          · by_cases hm : currentSkills.length ≥ 10
            · simpa [hd, hm] using hnd
            · simp only [hd, hm, Bool.false_eq_true, if_false, ge_iff_le, not_le]
              simp only [List.map_append, List.map_cons, List.map_nil]
              rw [List.nodup_append]
              refine ⟨hnd, List.nodup_singleton _, ?_⟩
              intro x hx hx2
              simp only [List.mem_singleton] at hx2
              subst hx2
              rcases List.mem_map.mp hx with ⟨s, hs, hsid⟩
              exact hd (List.any_eq_true.mpr ⟨s, hs, beq_iff_eq.mpr hsid⟩)
  · intro hm
    by_cases he : selectedSkillId = ""
    · simp [addSkill, he]
    · simp only [addSkill, if_neg he]
      cases hf : availableSkills.find? (fun s => s.id == selectedSkillId) with
      | none => rfl
      | some sk =>
          by_cases hd : currentSkills.any (fun s => s.id == sk.id)
          · simp [hd]
          · simp [hd, hm]
  · intro hmem
    by_cases he : selectedSkillId = ""
    · simp [addSkill, he]
    · simp only [addSkill, if_neg he]
      cases hf : availableSkills.find? (fun s => s.id == selectedSkillId) with
      | none => rfl
      | some sk =>
          have hskid : sk.id = selectedSkillId := by
            have := List.find?_some hf
            exact beq_iff_eq.mp this
          have hd : currentSkills.any (fun s => s.id == sk.id) = true := by
            rcases List.mem_map.mp hmem with ⟨s, hs, hsid⟩
            exact List.any_eq_true.mpr ⟨s, hs, beq_iff_eq.mpr (by rw [hsid, hskid])⟩
          simp [hd]
  · exact List.length_filter_le _ _
  · intro hnd
    have hsub : List.Sublist (removeSkill currentSkills selectedSkillId)
        currentSkills := List.filter_sublist currentSkills
    exact List.Nodup.sublist (hsub.map SkillRec.id) hnd

/-- Witness for C5 at concrete inputs: a full set of ten skills stays at
ten and is left unchanged by a further add; adding an id already present
leaves the set unchanged; removal never grows the set. -/
theorem claim_C5_witness :
    (addSkill [ { id := "s11", name := "K" } ] "s11"
        [ { id := "s1", name := "A" }, { id := "s2", name := "B" },
          { id := "s3", name := "C" }, { id := "s4", name := "D" },
          { id := "s5", name := "E" }, { id := "s6", name := "F" },
          { id := "s7", name := "G" }, { id := "s8", name := "H" },
          { id := "s9", name := "I" }, { id := "s10", name := "J" } ]).1
      = [ { id := "s1", name := "A" }, { id := "s2", name := "B" },
          { id := "s3", name := "C" }, { id := "s4", name := "D" },
          { id := "s5", name := "E" }, { id := "s6", name := "F" },
          { id := "s7", name := "G" }, { id := "s8", name := "H" },
          { id := "s9", name := "I" }, { id := "s10", name := "J" } ]
    ∧ (addSkill [ { id := "s1", name := "A" } ] "s1"
        [ { id := "s1", name := "A" } ]).1 = [ { id := "s1", name := "A" } ]
    ∧ (removeSkill [ { id := "s1", name := "A" } ] "s1").length
        ≤ ([ { id := "s1", name := "A" } ] : List SkillRec).length :=
  ⟨(claim_C5 [ { id := "s11", name := "K" } ] "s11"
      [ { id := "s1", name := "A" }, { id := "s2", name := "B" },
        { id := "s3", name := "C" }, { id := "s4", name := "D" },
        { id := "s5", name := "E" }, { id := "s6", name := "F" },
        { id := "s7", name := "G" }, { id := "s8", name := "H" },
        { id := "s9", name := "I" }, { id := "s10", name := "J" } ]).2.2.1
      (by decide),
   (claim_C5 [ { id := "s1", name := "A" } ] "s1"
      [ { id := "s1", name := "A" } ]).2.2.2.1 (by decide),
   (claim_C5 [ { id := "s1", name := "A" } ] "s1"
      [ { id := "s1", name := "A" } ]).2.2.2.2.1⟩

/-- Substring test on strings (character-list infix), used for the
skill-name filter of the search. -/
def containsSub (s pat : String) : Bool :=
  s.data.tails.any (fun t => pat.data.isPrefixOf t)

/-- The three optional search filters of `GET /users/search` (spec §4.1 and
the Search page's filter state): skill-name substring, direction, and
availability. -/
structure SearchFilters where
  skill : Option String
  skillType : Option String
  availability : Option String
deriving DecidableEq, Repr

/-- Eligibility for search results (spec §4.1): only public profiles of
non-banned users, excluding the requester's own record. -/
def eligible (requesterId : String) (u : UserRec) : Bool :=
  u.is_public && !u.banned && !(u.id == requesterId)

/-- Whether a user matches the skill-name filter in the requested
direction (spec §4.1: skill-name substring over the direction selected by
the `type` filter, both directions when unset). -/
def matchesSkill (skill skillType : Option String) (u : UserRec) : Bool :=
  match skill with
  | none => true
  | some pat =>
      let pool := match skillType with
        | some "offered" => u.skills_offered
        | some "wanted" => u.skills_wanted
        | _ => u.skills_offered ++ u.skills_wanted
      pool.any (fun nm => containsSub nm pat)

/-- Whether a user matches the availability filter (equality when set). -/
def matchesAvailability (availability : Option String) (u : UserRec) : Bool :=
  match availability with
  | none => true
  | some a => u.availability == a

/-- The page of results returned by the search endpoint, mirroring the
`SearchResults` interface of the Search page (`users`, `total`, `page`,
`limit`, `pages`). -/
structure SearchResultsPage where
  users : List UserRec
  total : Nat
  page : Nat
  limit : Nat
  pages : Nat
deriving DecidableEq, Repr

/-- Modelled from the spec: the backend handler for `GET /users/search`
(`searchUsers`), whose Python source is absent from the snapshot.  Spec
§4.1: returns the page of users matching all supplied filters, restricted
to public, non-banned users other than the requester, in stable store
order, with total count and page metadata (`pages` is the ceiling of
`total / limit`). -/
def searchUsers (allUsers : List UserRec) (requesterId : String)
    (f : SearchFilters) (page limit : Nat) : SearchResultsPage :=
  let matching := allUsers.filter (fun u =>
    eligible requesterId u && matchesSkill f.skill f.skillType u
      && matchesAvailability f.availability u)
  let total := matching.length
  { users := (matching.drop ((page - 1) * limit)).take limit,
    total := total, page := page, limit := limit,
    pages := (total + limit - 1) / limit }

/-- C6: no page returned by the search contains a banned user, a private
profile, or the requesting user's own record, whatever the filters. -/
theorem claim_C6 (allUsers : List UserRec) (requesterId : String)
    (f : SearchFilters) (page limit : Nat) (u : UserRec) :
    u ∈ (searchUsers allUsers requesterId f page limit).users →
    u.is_public = true ∧ u.banned = false ∧ u.id ≠ requesterId := by
  intro hu
  have h1 : u ∈ (allUsers.filter (fun u =>
      eligible requesterId u && matchesSkill f.skill f.skillType u
        && matchesAvailability f.availability u)).drop ((page - 1) * limit) :=
    List.take_subset _ _ hu
  have h2 : u ∈ allUsers.filter (fun u =>
      eligible requesterId u && matchesSkill f.skill f.skillType u
        && matchesAvailability f.availability u) :=
    List.drop_subset _ _ h1
  have h3 := (List.mem_filter.mp h2).2
  simp only [Bool.and_eq_true] at h3
  have he := h3.1.1
  simp only [eligible, Bool.and_eq_true, Bool.not_eq_true'] at he
  refine ⟨he.1.1, he.1.2, ?_⟩
  intro hid
  rw [beq_iff_eq.mpr hid] at he
  exact Bool.false_ne_true he.2.symm

/-- Witness for C6 at concrete inputs: the single public, non-banned user
u2 returned to requester u1 satisfies all three exclusions. -/
theorem claim_C6_witness :
    ({ id := "u2", name := "B", is_public := true, banned := false,
       availability := "Weekends", skills_offered := ["piano"],
       skills_wanted := [] } : UserRec).is_public = true
    ∧ ({ id := "u2", name := "B", is_public := true, banned := false,
         availability := "Weekends", skills_offered := ["piano"],
         skills_wanted := [] } : UserRec).banned = false
    ∧ ({ id := "u2", name := "B", is_public := true, banned := false,
         availability := "Weekends", skills_offered := ["piano"],
         skills_wanted := [] } : UserRec).id ≠ "u1" :=
  claim_C6
    [ { id := "u2", name := "B", is_public := true, banned := false,
        availability := "Weekends", skills_offered := ["piano"],
        skills_wanted := [] } ]
    "u1" { skill := none, skillType := none, availability := none } 1 12
    { id := "u2", name := "B", is_public := true, banned := false,
      availability := "Weekends", skills_offered := ["piano"],
      skills_wanted := [] }
    (by decide)

/-- The Search page's filter state (`filters` in `Search`): three string
fields, the empty string meaning unset. -/
structure ClientFilters where
  skill : String
  skillType : String
  availability : String
deriving DecidableEq, Repr

/-- An empty-string filter value is removed from the request parameters by
`performSearch` (the `Object.keys(params).forEach` deletion loop). -/
def toParamOpt (s : String) : Option String :=
  if s = "" then none else some s

/-- The query parameters of the `GET /users/search` call issued by the
Search page's `performSearch`: the current filters (empty ones removed)
plus `page: currentPage` and `limit: 12`. -/
structure SearchCallParams where
  skill : Option String
  skillType : Option String
  availability : Option String
  page : Nat
  limit : Nat
deriving DecidableEq, Repr

/-- The Search page's `performSearch` parameter construction. -/
def performSearchParams (filters : ClientFilters) (currentPage : Nat) :
    SearchCallParams :=
  { skill := toParamOpt filters.skill,
    skillType := toParamOpt filters.skillType,
    availability := toParamOpt filters.availability,
    page := currentPage, limit := 12 }

/-- C7: every search request the Search page issues carries `limit = 12`;
and a search with the availability filter set to "Weekends" returns only
users whose availability equals "Weekends", with page metadata consistent
with the limit: at most 12 users on the page, `limit` echoed, `page`
echoed, and `pages` the ceiling of `total / 12`. -/
theorem claim_C7 (filters : ClientFilters) (currentPage : Nat)
    (allUsers : List UserRec) (requesterId : String)
    (skill skillType : Option String) (page : Nat) :
    (performSearchParams filters currentPage).limit = 12
    ∧ (∀ u, u ∈ (searchUsers allUsers requesterId
        { skill := skill, skillType := skillType,
          availability := some "Weekends" } page 12).users →
        u.availability = "Weekends")
    ∧ (searchUsers allUsers requesterId
        { skill := skill, skillType := skillType,
          availability := some "Weekends" } page 12).users.length ≤ 12
    ∧ (searchUsers allUsers requesterId
        { skill := skill, skillType := skillType,
          availability := some "Weekends" } page 12).limit = 12
    ∧ (searchUsers allUsers requesterId
        { skill := skill, skillType := skillType,
          availability := some "Weekends" } page 12).page = page
    ∧ (searchUsers allUsers requesterId
        { skill := skill, skillType := skillType,
          availability := some "Weekends" } page 12).pages
      = ((searchUsers allUsers requesterId
          { skill := skill, skillType := skillType,
            availability := some "Weekends" } page 12).total + 11) / 12 := by
  refine ⟨rfl, ?_, ?_, rfl, rfl, rfl⟩
  · intro u hu
    have h1 := List.take_subset _ _ hu
    have h2 := List.drop_subset _ _ h1
    have h3 := (List.mem_filter.mp h2).2
    simp only [Bool.and_eq_true] at h3
    have ha := h3.2
    simp only [matchesAvailability] at ha
    exact beq_iff_eq.mp ha
  · exact List.length_take_le _ _

/-- Witness for C7 at concrete inputs: the Weekends-availability user u2 is
the only user returned to u1, and their availability is "Weekends". -/
theorem claim_C7_witness :
    ({ id := "u2", name := "B", is_public := true, banned := false,
       availability := "Weekends", skills_offered := [],
       skills_wanted := [] } : UserRec).availability = "Weekends" :=
  (claim_C7 { skill := "", skillType := "", availability := "Weekends" } 1
    [ { id := "u2", name := "B", is_public := true, banned := false,
        availability := "Weekends", skills_offered := [],
        skills_wanted := [] },
      { id := "u3", name := "C", is_public := true, banned := false,
        availability := "Weekdays", skills_offered := [],
        skills_wanted := [] } ]
    "u1" none none 1).2.1
    { id := "u2", name := "B", is_public := true, banned := false,
      availability := "Weekends", skills_offered := [],
      skills_wanted := [] }
    (by decide)

/-- The view state of the Swaps page that the lifecycle handlers can
affect: the two request lists. -/
structure SwapsViewState where
  sentRequests : List SwapRequest
  receivedRequests : List SwapRequest
deriving DecidableEq, Repr

/-- The observable result of running a React handler: the next view state,
whether the handler re-fetches the displayed lists, and which toast it
raises. -/
structure HandlerResult (σ : Type) where
  state : σ
  refetch : Bool
  toastSuccess : Bool
  toastError : Bool
deriving DecidableEq, Repr

/-- The Swaps page's `handleStatusUpdate`, as a function of the API call's
outcome: on success it toasts success and re-fetches both lists; on failure
it only toasts an error, touching neither list. -/
def handleStatusUpdate (prior : SwapsViewState) (apiOk : Bool) :
    HandlerResult SwapsViewState :=
  if apiOk then
    { state := prior, refetch := true, toastSuccess := true, toastError := false }
  else
    { state := prior, refetch := false, toastSuccess := false, toastError := true }

/-- The Swaps page's `handleCancelRequest`, same shape as
`handleStatusUpdate`. -/
def handleCancelRequest (prior : SwapsViewState) (apiOk : Bool) :
    HandlerResult SwapsViewState :=
  if apiOk then
    { state := prior, refetch := true, toastSuccess := true, toastError := false }
  else
    { state := prior, refetch := false, toastSuccess := false, toastError := true }

/-- The Search page's `performSearch` result handling: on success the
response replaces `searchResults`; on failure it only toasts an error and
`searchResults` keeps its prior value. -/
def performSearchResult (prior : SearchResultsPage)
    (response : Option SearchResultsPage) : HandlerResult SearchResultsPage :=
  match response with
  | some data =>
      { state := data, refetch := false, toastSuccess := false, toastError := false }
  | none =>
      { state := prior, refetch := false, toastSuccess := false, toastError := true }

/-- The Profile page's form state affected by `handleSave`. -/
structure ProfileViewState where
  name : String
  location : String
  availability : String
  is_public : Bool
  profile_photo : String
  skills_offered : List SkillRec
  skills_wanted : List SkillRec
  isEditing : Bool
deriving DecidableEq, Repr

/-- The Profile page's `handleSave`: on success it reloads the profile
(re-fetch), leaves edit mode and toasts success; on failure it only toasts
an error and the form state, including edit mode, is untouched. -/
def handleSave (prior : ProfileViewState) (apiOk : Bool) :
    HandlerResult ProfileViewState :=
  if apiOk then
    { state := { prior with isEditing := false }, refetch := true,
      toastSuccess := true, toastError := false }
  else
    { state := prior, refetch := false, toastSuccess := false, toastError := true }

/-- C8: when the API call fails, each client handler (status update,
cancel, search, profile save) raises only a transient error toast and
leaves the prior view state unchanged with no re-fetch; the displayed data
is replaced or re-fetched only on success. -/
theorem claim_C8 (priorSwaps : SwapsViewState) (priorSearch : SearchResultsPage)
    (priorProfile : ProfileViewState) (data : SearchResultsPage) :
    handleStatusUpdate priorSwaps false
      = { state := priorSwaps, refetch := false,
          toastSuccess := false, toastError := true }
    ∧ handleCancelRequest priorSwaps false
      = { state := priorSwaps, refetch := false,
          toastSuccess := false, toastError := true }
    ∧ performSearchResult priorSearch none
      = { state := priorSearch, refetch := false,
          toastSuccess := false, toastError := true }
    ∧ handleSave priorProfile false
      = { state := priorProfile, refetch := false,
          toastSuccess := false, toastError := true }
    ∧ (handleStatusUpdate priorSwaps true).refetch = true
    ∧ (handleCancelRequest priorSwaps true).refetch = true
    ∧ (handleSave priorProfile true).refetch = true
    ∧ (performSearchResult priorSearch (some data)).state = data
    ∧ (performSearchResult priorSearch (some data)).toastError = false :=
  ⟨rfl, rfl, rfl, rfl, rfl, rfl, rfl, rfl, rfl⟩

/-- The client-side storage the auth flow manipulates: the `token` and
`user` entries of localStorage, from `frontend/src/services/api.ts` and
`frontend/src/contexts/AuthContext.tsx`. -/
structure ClientStorage where
  token : Option String
  user : Option String
deriving DecidableEq, Repr

/-- The axios response interceptor of `frontend/src/services/api.ts`: on an
HTTP 401 response it removes both stored entries and redirects to /login
(the returned flag); any other response leaves storage alone. -/
def responseInterceptor (storage : ClientStorage) (status : Nat) :
    ClientStorage × Bool :=
  if status = 401 then ({ token := none, user := none }, true)
  else (storage, false)

/-- The `login` flow of `AuthContext.tsx`: stores the access token, then
the fetched user, so both entries are populated. -/
def login (_storage : ClientStorage) (accessToken userData : String) :
    ClientStorage :=
  { token := some accessToken, user := some userData }

/-- The `logout` flow of `AuthContext.tsx`: removes both entries. -/
def logout (_storage : ClientStorage) : ClientStorage :=
  { token := none, user := none }

/-- C9: a 401 response through the shared client clears both the stored
token and the stored user and redirects to the login page; any other status
leaves storage untouched; login populates both entries and logout clears
both. -/
theorem claim_C9 (storage : ClientStorage) (status : Nat)
    (accessToken userData : String) :
    (status = 401 →
      responseInterceptor storage status
        = ({ token := none, user := none }, true))
    ∧ (status ≠ 401 → responseInterceptor storage status = (storage, false))
    ∧ login storage accessToken userData
      = { token := some accessToken, user := some userData }
    ∧ logout storage = { token := none, user := none } := by
  refine ⟨?_, ?_, rfl, rfl⟩
  · intro h
    simp [responseInterceptor, h]
  · intro h
    simp [responseInterceptor, h]

/-- Witness for C9 at concrete inputs: a 401 on a populated storage clears
and redirects; a 200 leaves it alone. -/
theorem claim_C9_witness :
    responseInterceptor { token := some "t", user := some "u" } 401
      = ({ token := none, user := none }, true)
    ∧ responseInterceptor { token := some "t", user := some "u" } 200
      = ({ token := some "t", user := some "u" }, false) :=
  ⟨(claim_C9 { token := some "t", user := some "u" } 401 "t" "u").1 rfl,
   (claim_C9 { token := some "t", user := some "u" } 200 "t" "u").2.1
     (by decide)⟩


/-- The calls the frontend's swap API client can issue that create or
retract a request (`swapAPI.createRequest` / `swapAPI.cancelRequest` in
`frontend/src/services/api.ts`). -/
inductive SwipeApiCall where
  | createSwapRequest (targetUserId : String) (message : String)
  | cancelSwapRequest (requestId : String)
deriving DecidableEq, Repr

/-- The message the SwipeMatches page attaches to a right-swipe request. -/
def swipeRightMessage : String :=
  "Hi! I\x27m interested in swapping skills with you. Let\x27s connect!"

/-- The swipe direction of the SwipeMatches page. -/
inductive SwipeDirection where
  | left
  | right
deriving DecidableEq, Repr

/-- The SwipeMatches view state touched by `onSwipe` and `handleUndo`: the
candidate list (ids, in order), the current card index, and the locally
tracked set of already-swiped user ids. -/
structure SwipeState where
  users : List String
  currentIndex : Nat
  swipedUsers : List String
deriving DecidableEq, Repr

/-- The SwipeMatches page's `onSwipe`: records the swiped user in the
swiped set (set semantics: no duplicate entry), advances the card index,
and on a right swipe issues a create-request call for the swiped user; a
left swipe issues no call. -/
def onSwipe (st : SwipeState) (direction : SwipeDirection)
    (swipedUserId : String) : SwipeState × List SwipeApiCall :=
  let swiped :=
    if st.swipedUsers.contains swipedUserId then st.swipedUsers
    else st.swipedUsers ++ [swipedUserId]
  let calls :=
    match direction with
    | SwipeDirection.right =>
        [SwipeApiCall.createSwapRequest swipedUserId swipeRightMessage]
    | SwipeDirection.left => []
  ({ st with swipedUsers := swiped, currentIndex := st.currentIndex + 1 }, calls)

/-- The SwipeMatches page's `handleUndo`: when the index is positive it
decrements the card index and removes the previous card's user from the
swiped set; it issues no API call in any case. -/
def handleUndo (st : SwipeState) : SwipeState × List SwipeApiCall :=
  if st.currentIndex > 0 then
    ({ st with
        currentIndex := st.currentIndex - 1,
        swipedUsers := st.swipedUsers.filter
          (fun i => !(i == st.users.getD (st.currentIndex - 1) "")) }, [])
  else (st, [])

/-- Concrete fixture: a fresh swipe session over candidates u2 and u3. -/
def swipeStart : SwipeState :=
  { users := ["u2", "u3"], currentIndex := 0, swipedUsers := [] }

/-- C10: a right swipe issues exactly one create-request call for the
swiped user; `handleUndo` issues no API call whatsoever (in particular no
cancel), so the request sent by a right swipe is never retracted by undo;
undo only moves the index back and removes the user from the swiped set,
leaving the candidate list untouched. -/
theorem claim_C10 (st : SwipeState) (swipedUserId : String) :
    (onSwipe st SwipeDirection.right swipedUserId).2
      = [SwipeApiCall.createSwapRequest swipedUserId swipeRightMessage]
    ∧ (∀ st2 : SwipeState, (handleUndo st2).2 = [])
    ∧ (∀ (requestId : String) (d : SwipeDirection),
        SwipeApiCall.cancelSwapRequest requestId ∉ (onSwipe st d swipedUserId).2)
    ∧ (handleUndo st).1.users = st.users
    ∧ (st.currentIndex > 0 →
        (handleUndo st).1.currentIndex = st.currentIndex - 1) := by
  refine ⟨rfl, ?_, ?_, ?_, ?_⟩
  · intro st2
    by_cases h : st2.currentIndex > 0 <;> simp [handleUndo, h]
  · intro requestId d
    cases d <;> simp [onSwipe]
  · by_cases h : st.currentIndex > 0 <;> simp [handleUndo, h]
  · intro h
    simp [handleUndo, h]

/-- Witness for C10 at concrete inputs: after a right swipe on u2 from a
fresh session, undo moves the index back from 1 to 0 and issues no call. -/
theorem claim_C10_witness :
    (handleUndo ((onSwipe swipeStart SwipeDirection.right "u2").1)).2 = []
    ∧ (handleUndo ((onSwipe swipeStart SwipeDirection.right "u2").1)).1.currentIndex
      = ((onSwipe swipeStart SwipeDirection.right "u2").1).currentIndex - 1 :=
  ⟨(claim_C10 ((onSwipe swipeStart SwipeDirection.right "u2").1) "u2").2.1
      ((onSwipe swipeStart SwipeDirection.right "u2").1),
   (claim_C10 ((onSwipe swipeStart SwipeDirection.right "u2").1) "u2").2.2.2.2
      (by decide)⟩
